import Mathlib

set_option linter.unusedVariables false

/-! Shallow embedding of the credential store (src/creds.rs) and the request
gateway (src/public.rs) of the public_trading client library.

Timestamps (chrono DateTime of Utc) are modelled as integers counting seconds
on the timeline; chrono Duration::minutes(n) is n * 60 seconds.  File-system
and network effects are modelled by explicit state passing and by oracle
functions standing for the outcome of a single external call. -/

/-- chrono Duration::minutes, measured in seconds on the integer timeline. -/
def Chrono.minutes (n : Int) : Int := n * 60

/-- Constant TOKEN_TTL from src/creds.rs (minutes). -/
def TOKEN_TTL : Int := 60

/-- Constant TOKEN_REFRESH = TOKEN_TTL - 1 from src/creds.rs (minutes). -/
def TOKEN_REFRESH : Int := TOKEN_TTL - 1

/-- Struct CredsData from src/creds.rs: the cached bearer token and its
absolute expiry timestamp. -/
structure CredsData where
  token : String
  token_ttl : Int
  deriving DecidableEq, Repr

/-- Struct Creds from src/creds.rs: the optional cached credential data. -/
structure Creds where
  data : Option CredsData
  deriving DecidableEq, Repr

/-- Model of the persisted creds file (home/.public/creds.json).  A file is
missing, unreadable, holds JSON that does not deserialize to CredsData, or
holds a serialized CredsData.  serde_json round-trips CredsData (a string and
an RFC3339 timestamp), so well-formed contents are kept structured. -/
inductive CredsFile where
  | missing
  | unreadable
  | malformed
  | stored (d : CredsData)
  deriving DecidableEq, Repr

/-- Creds::access_token from src/creds.rs: return the cached token only while
now.cmp(token_ttl) is Ordering::Less; an expired or absent entry yields
None (the stale entry is not evicted). -/
def Creds.access_token (c : Creds) (now : Int) : Option String :=
  match c.data with
  | some creds =>
      if compare now creds.token_ttl = Ordering.lt then some creds.token
      else none
  | none => none

/-- Creds::refresh from src/creds.rs, in-memory part: unconditionally
overwrite the cached entry with the new token and expiry
now + Duration::minutes(TOKEN_REFRESH). -/
def Creds.refresh (c : Creds) (token : String) (now : Int) : Creds :=
  { data := some { token := token, token_ttl := now + Chrono.minutes TOKEN_REFRESH } }

/-- Creds::ttl from src/creds.rs. -/
def Creds.ttl (c : Creds) : Int := TOKEN_TTL

/-- Creds::save_creds_to_file from src/creds.rs: with no token present the
file is left alone (the function returns Ok early); otherwise the serialized
CredsData replaces the file contents (truncate-and-overwrite). -/
def Creds.save_creds_to_file (c : Creds) (fs : CredsFile) : CredsFile :=
  match c.data with
  | none => fs
  | some d => CredsFile.stored d

/-- Read-and-parse step of Creds::load_creds_from_file: fs::read_to_string
fails on a missing or unreadable file, serde_json::from_str fails on
malformed contents. -/
def CredsFile.read : CredsFile → Except String CredsData
  | .missing => .error "No such file or directory"
  | .unreadable => .error "Permission denied"
  | .malformed => .error "invalid JSON"
  | .stored d => .ok d

/-- Creds::load_creds_from_file from src/creds.rs: read and parse the creds
file, storing the parsed data on success; either failure propagates. -/
def Creds.load_creds_from_file (c : Creds) (fs : CredsFile) : Except String Creds :=
  match fs.read with
  | .ok d => .ok { data := some d }
  | .error e => .error e

/-- Creds::new from src/creds.rs: start from data = None and attempt to load
from the creds file; a load failure is only warned about, never surfaced, so
construction is total. -/
def Creds.new (fs : CredsFile) : Creds :=
  match Creds.load_creds_from_file { data := none } fs with
  | .ok c => c
  | .error _ => { data := none }

/-- Creds::refresh together with its file side effect: the in-memory
overwrite followed by save_creds_to_file on the persisted file (the write
succeeding, as the round-trip property assumes). -/
def Creds.refreshFS (c : Creds) (token : String) (now : Int) (fs : CredsFile) :
    Creds × CredsFile :=
  let c2 := c.refresh token now
  (c2, c2.save_creds_to_file fs)

/-- Enum PublicError from src/public.rs. -/
inductive PublicError where
  | AccountTypeNotFound
  | MissingCredentials
  | MissingAccountId
  | ServiceError (code message : String)
  | HttpError (detail : String)
  | InvalidUri
  deriving DecidableEq, Repr

/-- Struct ServiceErrorMsg from src/public.rs: the structured error body shape. -/
structure ServiceErrorMsg where
  error : String
  message : String
  deriving DecidableEq, Repr

/-- Model of a received HTTP response: its status code and its body.  The body
is represented by the outcomes of the two deserializations the code may
attempt on it: parsing it as the structured ServiceErrorMsg error shape, and
decoding it into the expected schema (a failure carries the decoding error
text, as produced by serde). -/
structure HttpResponse (α : Type) where
  status : Nat
  error_body : Option ServiceErrorMsg
  schema_body : Except String α

/-- reqwest StatusCode::is_success: the 2xx range. -/
def statusIsSuccess (s : Nat) : Bool := 200 ≤ s && s < 300

/-- Function handle_response from src/public.rs: a transport error (Err with
no response obtained) becomes HttpError carrying the error description; a
non-2xx response is decoded as ServiceErrorMsg, yielding
ServiceError(error, message) on success and the synthetic
MalformedJsonErrorResponse ServiceError (no structured detail) when that
decoding fails; a 2xx response is passed through. -/
def handle_response {α : Type} (response : Except String (HttpResponse α)) :
    Except PublicError (HttpResponse α) :=
  match response with
  | .error e => .error (PublicError.HttpError e)
  | .ok res =>
      if statusIsSuccess res.status then .ok res
      else
        match res.error_body with
        | some msg => .error (PublicError.ServiceError msg.error msg.message)
        | none =>
            .error (PublicError.ServiceError "MalformedJsonErrorResponse"
              "Couldnt parse server error json response")

/-- Expansion of the response! macro from src/public.rs: decode a response
body into the expected schema; a decoding failure becomes the synthetic
MalformedJsonResponse ServiceError carrying the decoding error text. -/
def decodeResponse {α : Type} (res : HttpResponse α) : Except PublicError α :=
  match res.schema_body with
  | .ok data => .ok data
  | .error e =>
      .error (PublicError.ServiceError "MalformedJsonResponse"
        ("Couldnt parse json response: " ++ e))

/-- Full normalization pipeline an endpoint applies to the outcome of one HTTP
request: handle_response followed by the response! decoding. -/
def requestPipeline {α : Type} (response : Except String (HttpResponse α)) :
    Except PublicError α :=
  match handle_response response with
  | .ok res => decodeResponse res
  | .error e => .error e

/-- Struct Account from src/public.rs. -/
structure Account where
  account_id : String
  account_type : String
  options_level : String
  brokerage_account_type : String
  trade_permissions : String
  deriving DecidableEq, Repr

/-- Enum InstrumentType from src/public.rs. -/
inductive InstrumentType where
  | EQUITY
  | OPTION
  | MULTI_LEG_INSTRUMENT
  | CRYPTO
  | ALT
  | TREASURY
  | BOND
  | INDEX
  deriving DecidableEq, Repr

/-- Struct Instrument from src/public.rs. -/
structure Instrument where
  symbol : String
  itype : InstrumentType
  deriving DecidableEq, Repr

/-- Struct Quote from src/public.rs (decimal fields are kept as the strings
the wire format carries; u64 counts become Nat). -/
structure Quote where
  instrument : Instrument
  outcome : String
  last : String
  last_timestamp : String
  bid : String
  bid_size : Option Nat
  bid_timestamp : String
  ask : String
  ask_size : Option Nat
  ask_timestamp : String
  volume : Nat
  open_interest : Option Nat
  deriving DecidableEq, Repr

/-- Struct QuotesRequest from src/public.rs. -/
structure QuotesRequest where
  instruments : List Instrument
  deriving DecidableEq, Repr

/-- Struct QuotesResponse from src/public.rs. -/
structure QuotesResponse where
  quotes : List Quote
  deriving DecidableEq, Repr

/-- Struct GetOptionExpirationsRequest from src/public.rs. -/
structure GetOptionExpirationsRequest where
  instrument : Instrument
  deriving DecidableEq, Repr

/-- Struct GetOptionExpirationsResponse from src/public.rs. -/
structure GetOptionExpirationsResponse where
  base_symbol : String
  expirations : List String
  deriving DecidableEq, Repr

/-- Struct GetOptionChainRequest from src/public.rs. -/
structure GetOptionChainRequest where
  instrument : Instrument
  expiration_date : String
  deriving DecidableEq, Repr

/-- Struct OptionChain from src/public.rs. -/
structure OptionChain where
  base_symbol : String
  calls : List Quote
  puts : List Quote
  deriving DecidableEq, Repr

/-- Struct OptionGreeks from src/public.rs. -/
structure OptionGreeks where
  delta : String
  gamma : String
  theta : String
  vega : String
  rho : String
  implied_volatility : String
  deriving DecidableEq, Repr

/-- Struct PublicClient from src/public.rs: the resolved account id and the
shared credential store (the reqwest client and the base URL live inside the
network oracles the operations take). -/
structure PublicClient where
  account_id : Option String
  creds : Creds
  deriving DecidableEq, Repr

/-- PublicClient::set_account from src/public.rs: given the outcome of the
get_accounts call, filter the accounts to those of the requested type, take
the last matching account id (Iterator::last after filter and map), and store
it in the client; with no match the client is left unchanged and
AccountTypeNotFound is returned.  The pair carries the client state after the
call next to the call result. -/
def PublicClient.set_account (pc : PublicClient) (account_type : String)
    (fetched : Except PublicError (List Account)) :
    PublicClient × Except PublicError Unit :=
  match fetched with
  | .error e => (pc, .error e)
  | .ok accounts =>
      match ((accounts.filter fun account => account.account_type == account_type).map
          fun account => account.account_id).getLast? with
      | some account_id => ({ pc with account_id := some account_id }, .ok ())
      | none => (pc, .error PublicError.AccountTypeNotFound)

/-- PublicClient::access_token from src/public.rs.  now is the instant of the
store query and nowR the instant of the refresh; vault is the outcome of
Creds::public_secret (the Bitwarden fetch, erring with the description of the
underlying failure) and exchange the outcome of create_personal_token as a
function of the secret and the requested TTL. -/
def PublicClient.access_token (pc : PublicClient) (now nowR : Int)
    (vault : Except String String)
    (exchange : String → Int → Except PublicError String) :
    Except PublicError String × PublicClient :=
  match pc.creds.access_token now with
  | some token => (.ok token, pc)
  | none =>
      match vault with
      | .error _ => (.error PublicError.MissingCredentials, pc)
      | .ok public_secret =>
          match exchange public_secret pc.creds.ttl with
          | .error e => (.error e, pc)
          | .ok public_token =>
              (.ok public_token,
                { pc with creds := pc.creds.refresh public_token nowR })

/-- Path of the quotes endpoint, parameterized by account id. -/
def quotesPath (account_id : String) : String :=
  "/userapigateway/marketdata/" ++ account_id ++ "/quotes"

/-- Path of the option-expirations endpoint, parameterized by account id. -/
def optionExpirationsPath (account_id : String) : String :=
  "/userapigateway/marketdata/" ++ account_id ++ "/option-expirations"

/-- Path of the option-chain endpoint, parameterized by account id. -/
def optionChainPath (account_id : String) : String :=
  "/userapigateway/marketdata/" ++ account_id ++ "/option-chain"

/-- Path of the greeks endpoint, parameterized by account id and symbol. -/
def optionGreeksPath (account_id osi_option_symbol : String) : String :=
  "/userapigateway/option-details/" ++ account_id ++ "/" ++ osi_option_symbol ++ "/greeks"

/-- PublicClient::get_quotes from src/public.rs: the account_id! guard first,
then the authenticated POST and the response! decoding (both represented by
the call oracle, a function of the path and the request body). -/
def PublicClient.get_quotes (pc : PublicClient) (symbols : List Instrument)
    (call : String → QuotesRequest → Except PublicError QuotesResponse) :
    Except PublicError (List Quote) :=
  match pc.account_id with
  | none => .error PublicError.MissingAccountId
  | some account_id =>
      match call (quotesPath account_id) { instruments := symbols } with
      | .ok data => .ok data.quotes
      | .error e => .error e

/-- PublicClient::get_option_expirations from src/public.rs: the account_id!
guard first, then the authenticated POST and the response! decoding. -/
def PublicClient.get_option_expirations (pc : PublicClient) (instrument : Instrument)
    (call : String → GetOptionExpirationsRequest →
      Except PublicError GetOptionExpirationsResponse) :
    Except PublicError (List String) :=
  match pc.account_id with
  | none => .error PublicError.MissingAccountId
  | some account_id =>
      match call (optionExpirationsPath account_id) { instrument := instrument } with
      | .ok data => .ok data.expirations
      | .error e => .error e

/-- PublicClient::get_option_chain from src/public.rs: the account_id! guard
first, then the authenticated POST and the response! decoding. -/
def PublicClient.get_option_chain (pc : PublicClient) (instrument : Instrument)
    (expiration_date : String)
    (call : String → GetOptionChainRequest → Except PublicError OptionChain) :
    Except PublicError OptionChain :=
  match pc.account_id with
  | none => .error PublicError.MissingAccountId
  | some account_id =>
      match call (optionChainPath account_id)
          { instrument := instrument, expiration_date := expiration_date } with
      | .ok option_chain => .ok option_chain
      | .error e => .error e

/-- PublicClient::get_option_greeks from src/public.rs: the account_id! guard
first, then the authenticated GET and the response! decoding. -/
def PublicClient.get_option_greeks (pc : PublicClient) (osi_option_symbol : String)
    (call : String → Except PublicError OptionGreeks) :
    Except PublicError OptionGreeks :=
  match pc.account_id with
  | none => .error PublicError.MissingAccountId
  | some account_id =>
      match call (optionGreeksPath account_id osi_option_symbol) with
      | .ok greeks => .ok greeks
      | .error e => .error e

/-- Client with nothing resolved yet, as built by PublicClient::new against an
absent creds file. -/
def emptyClient : PublicClient :=
  { account_id := none, creds := { data := none } }

/-- C1: for every store state, if the store holds a token with expiry E then
access_token at instant t returns some of that token exactly when t is
strictly before E and none when t is at or after E; with no stored token it
returns none. -/
theorem c1_expiry_invariant (c : Creds) (t : Int) :
    (∀ d, c.data = some d →
      ((c.access_token t = some d.token) ↔ t < d.token_ttl) ∧
      (d.token_ttl ≤ t → c.access_token t = none)) ∧
    (c.data = none → c.access_token t = none) := by
  obtain ⟨data⟩ := c
  constructor
  · intro d hd
    have hdata : data = some d := hd
    subst hdata
    constructor
    · show (if compare t d.token_ttl = Ordering.lt then some d.token else none) =
        some d.token ↔ t < d.token_ttl
      by_cases hlt : t < d.token_ttl
      · rw [if_pos (compare_lt_iff_lt.mpr hlt)]
        simp [hlt]
      · rw [if_neg (fun hc => hlt (compare_lt_iff_lt.mp hc))]
        simp [hlt]
    · intro h
      show (if compare t d.token_ttl = Ordering.lt then some d.token else none) = none
      rw [if_neg (fun hc => absurd (compare_lt_iff_lt.mp hc) (by omega))]
  · intro h
    have hdata : data = none := h
    subst hdata
    rfl

/-- Witness for C1 at a concrete store: the token is returned one second
before its expiry and absent exactly at the expiry instant. -/
theorem c1_expiry_invariant_witness :
    Creds.access_token { data := some { token := "tok-abc", token_ttl := 100 } } 99 =
      some "tok-abc" ∧
    Creds.access_token { data := some { token := "tok-abc", token_ttl := 100 } } 100 =
      none :=
  ⟨((c1_expiry_invariant { data := some { token := "tok-abc", token_ttl := 100 } } 99).1
      { token := "tok-abc", token_ttl := 100 } rfl).1.mpr (by decide),
   ((c1_expiry_invariant { data := some { token := "tok-abc", token_ttl := 100 } } 100).1
      { token := "tok-abc", token_ttl := 100 } rfl).2 (by decide)⟩

/-- C2: refresh(token) at instant now stores expiry now + (TTL - 1) minutes,
where TTL is the fixed 60 minutes returned by ttl(); the stored entry is
never the one with expiry now + TTL. -/
theorem c2_ttl_margin (c : Creds) (token : String) (now : Int) :
    c.ttl = 60 ∧
    (c.refresh token now).data =
      some { token := token, token_ttl := now + Chrono.minutes (c.ttl - 1) } ∧
    (c.refresh token now).data ≠
      some { token := token, token_ttl := now + Chrono.minutes c.ttl } := by
  refine ⟨rfl, rfl, ?_⟩
  intro h
  simp only [Creds.refresh, Option.some.injEq, CredsData.mk.injEq, Creds.ttl,
    Chrono.minutes, TOKEN_REFRESH, TOKEN_TTL] at h
  omega

/-- Witness for C2 at a concrete refresh: at now = 1000 the stored expiry is
1000 + 59 minutes and differs from 1000 + 60 minutes. -/
theorem c2_ttl_margin_witness :
    Creds.ttl { data := none } = 60 ∧
    (Creds.refresh { data := none } "tok" 1000).data =
      some { token := "tok", token_ttl := 1000 + Chrono.minutes (Creds.ttl { data := none } - 1) } ∧
    (Creds.refresh { data := none } "tok" 1000).data ≠
      some { token := "tok", token_ttl := 1000 + Chrono.minutes (Creds.ttl { data := none }) } :=
  c2_ttl_margin { data := none } "tok" 1000

/-- C6: refresh(token) at instant now followed by constructing a fresh store
from the persisted file yields a store whose access_token returns the token
at any instant strictly before the stored expiry (which is
now + TOKEN_REFRESH minutes). -/
theorem c6_persistence_round_trip (c : Creds) (token : String) (now nowR : Int)
    (fs : CredsFile) (h : nowR < now + Chrono.minutes TOKEN_REFRESH) :
    (c.refreshFS token now fs).1.data =
      some { token := token, token_ttl := now + Chrono.minutes TOKEN_REFRESH } ∧
    (Creds.new (c.refreshFS token now fs).2).access_token nowR = some token := by
  refine ⟨rfl, ?_⟩
  show Creds.access_token
    (Creds.new (CredsFile.stored { token := token, token_ttl := now + Chrono.minutes TOKEN_REFRESH }))
    nowR = some token
  unfold Creds.new Creds.load_creds_from_file CredsFile.read Creds.access_token
  simp only [if_pos (compare_lt_iff_lt.mpr h)]

/-- Witness for C6: a concrete refresh at instant 0 persisted and reloaded,
read back at instant 60 (inside the 59-minute window). -/
theorem c6_persistence_round_trip_witness :
    (Creds.refreshFS { data := none } "tok" 0 CredsFile.missing).1.data =
      some { token := "tok", token_ttl := 0 + Chrono.minutes TOKEN_REFRESH } ∧
    (Creds.new (Creds.refreshFS { data := none } "tok" 0 CredsFile.missing).2).access_token 60 =
      some "tok" :=
  c6_persistence_round_trip { data := none } "tok" 0 60 CredsFile.missing (by decide)

/-- C7: constructing a store against a missing file, an unreadable file, or a
file with malformed contents always succeeds (Creds.new is a total function)
and yields a store with no cached data, whose access_token is none at every
instant. -/
theorem c7_corrupt_missing_tolerance (t : Int) :
    Creds.new CredsFile.missing = { data := none } ∧
    Creds.new CredsFile.unreadable = { data := none } ∧
    Creds.new CredsFile.malformed = { data := none } ∧
    (Creds.new CredsFile.missing).access_token t = none ∧
    (Creds.new CredsFile.unreadable).access_token t = none ∧
    (Creds.new CredsFile.malformed).access_token t = none :=
  ⟨rfl, rfl, rfl, rfl, rfl, rfl⟩

/-- C9: refresh(t1) then refresh(t2) leaves the store (and the persisted
file) holding exactly t2 and its freshly computed expiry, independent of the
starting state and of t1: the result coincides with refreshing t2 from any
store whatsoever. -/
theorem c9_refresh_overwrite (c : Creds) (t1 t2 : String) (n1 n2 : Int) (fs : CredsFile) :
    (c.refresh t1 n1).refresh t2 n2 =
      { data := some { token := t2, token_ttl := n2 + Chrono.minutes TOKEN_REFRESH } } ∧
    (∀ c2 : Creds, (c.refresh t1 n1).refresh t2 n2 = c2.refresh t2 n2) ∧
    ((c.refreshFS t1 n1 fs).1.refreshFS t2 n2 (c.refreshFS t1 n1 fs).2) =
      ({ data := some { token := t2, token_ttl := n2 + Chrono.minutes TOKEN_REFRESH } },
        CredsFile.stored { token := t2, token_ttl := n2 + Chrono.minutes TOKEN_REFRESH }) :=
  ⟨rfl, fun _ => rfl, rfl⟩

/-- C3: response normalization is exhaustive and deterministic.  A transport
failure with no response yields HttpError with the underlying description; a
non-2xx response whose body parses as the structured error shape yields
ServiceError(error, message); a non-2xx response whose body fails to parse
yields the MalformedJsonErrorResponse ServiceError with no structured detail;
a 2xx response whose body fails to decode into the expected schema yields the
MalformedJsonResponse ServiceError carrying the decoding error text (and a
2xx response that decodes is returned as the decoded value). -/
theorem c3_error_normalization {α : Type} (r : Except String (HttpResponse α)) :
    (∀ e, r = .error e → requestPipeline r = .error (PublicError.HttpError e)) ∧
    (∀ res, r = .ok res → statusIsSuccess res.status = false →
      (∀ m, res.error_body = some m →
        requestPipeline r = .error (PublicError.ServiceError m.error m.message)) ∧
      (res.error_body = none →
        requestPipeline r = .error (PublicError.ServiceError "MalformedJsonErrorResponse"
          "Couldnt parse server error json response"))) ∧
    (∀ res, r = .ok res → statusIsSuccess res.status = true →
      (∀ v, res.schema_body = .ok v → requestPipeline r = .ok v) ∧
      (∀ e, res.schema_body = .error e →
        requestPipeline r = .error (PublicError.ServiceError "MalformedJsonResponse"
          ("Couldnt parse json response: " ++ e)))) := by
  refine ⟨?_, ?_, ?_⟩
  · rintro e rfl
    rfl
  · rintro res rfl hstatus
    constructor
    · rintro m hm
      simp [requestPipeline, handle_response, hstatus, hm]
    · rintro hm
      simp [requestPipeline, handle_response, hstatus, hm]
  · rintro res rfl hstatus
    constructor
    · rintro v hv
      simp [requestPipeline, handle_response, decodeResponse, hstatus, hv]
    · rintro e he
      simp [requestPipeline, handle_response, decodeResponse, hstatus, he]

/-- Witness for C3 on concrete outcomes at the quotes schema: a connection
failure, a 422 with a structured body, a 500 with an unparseable body, and a
200 whose body does not decode. -/
theorem c3_error_normalization_witness :
    requestPipeline (α := QuotesResponse) (.error "connection refused") =
      .error (PublicError.HttpError "connection refused") ∧
    requestPipeline (α := QuotesResponse)
        (.ok { status := 422, error_body := some { error := "X", message := "Y" },
               schema_body := .error "unprocessable" }) =
      .error (PublicError.ServiceError "X" "Y") ∧
    requestPipeline (α := QuotesResponse)
        (.ok { status := 500, error_body := none, schema_body := .error "html body" }) =
      .error (PublicError.ServiceError "MalformedJsonErrorResponse"
        "Couldnt parse server error json response") ∧
    requestPipeline (α := QuotesResponse)
        (.ok { status := 200, error_body := none, schema_body := .error "missing field quotes" }) =
      .error (PublicError.ServiceError "MalformedJsonResponse"
        ("Couldnt parse json response: " ++ "missing field quotes")) :=
  ⟨(c3_error_normalization (.error "connection refused")).1 "connection refused" rfl,
   ((c3_error_normalization _).2.1
      { status := 422, error_body := some { error := "X", message := "Y" },
        schema_body := .error "unprocessable" } rfl (by decide)).1
      { error := "X", message := "Y" } rfl,
   ((c3_error_normalization _).2.1
      { status := 500, error_body := none, schema_body := .error "html body" } rfl
      (by decide)).2 rfl,
   ((c3_error_normalization _).2.2
      { status := 200, error_body := none, schema_body := .error "missing field quotes" } rfl
      (by decide)).2 "missing field quotes" rfl⟩

/-- Helper: the head of a filtered list is the first element satisfying the
predicate. -/
theorem head?_filter_eq_find? {α : Type} (p : α → Bool) (l : List α) :
    (l.filter p).head? = l.find? p := by
  induction l with
  | nil => rfl
  | cons a t ih =>
    by_cases h : p a
    · simp [List.filter_cons, h]
    · simp [List.filter_cons, h, ih]

/-- Helper: a successful find? splits the list at the first hit, everything
before it failing the predicate. -/
theorem find?_eq_some_decomp {α : Type} (p : α → Bool) :
    ∀ (l : List α) (a : α), l.find? p = some a →
      p a = true ∧ ∃ l₁ l₂, l = l₁ ++ a :: l₂ ∧ ∀ b ∈ l₁, p b = false := by
  intro l
  induction l with
  | nil => intro a h; exact absurd h (by simp)
  | cons c t ih =>
    intro a h
    by_cases hc : p c
    · rw [List.find?_cons_of_pos t hc] at h
      cases h
      exact ⟨hc, [], t, rfl, by simp⟩
    · rw [List.find?_cons_of_neg t (by simpa using hc)] at h
      obtain ⟨hpa, l₁, l₂, heq, hall⟩ := ih a h
      refine ⟨hpa, c :: l₁, l₂, by rw [heq, List.cons_append], ?_⟩
      intro b hb
      rcases List.mem_cons.mp hb with hbc | hb2
      · rw [hbc]
        simpa using hc
      · exact hall b hb2

/-- Helper: the last element of filter-then-map equals the first hit of find?
on the reversed list, mapped. -/
theorem getLast?_map_filter_eq {α β : Type} (p : α → Bool) (f : α → β) (l : List α) :
    ((l.filter p).map f).getLast? = (l.reverse.find? p).map f := by
  rw [List.getLast?_map, ← List.head?_reverse, ← List.filter_reverse,
    head?_filter_eq_find?]

/-- C4: set_account selects the last entry in list order whose type equals
the requested string and stores its id; with zero matches it fails with
AccountTypeNotFound leaving the client unchanged.  The selected entry a is
characterised positionally: the accounts split as a prefix, a, and a suffix
containing no further match. -/
theorem c4_account_selection (pc : PublicClient) (accounts : List Account)
    (account_type : String) :
    ((∀ a ∈ accounts, a.account_type ≠ account_type) →
      pc.set_account account_type (.ok accounts) =
        (pc, .error PublicError.AccountTypeNotFound)) ∧
    ((∃ a ∈ accounts, a.account_type = account_type) →
      ∃ l₁ a l₂, accounts = l₁ ++ a :: l₂ ∧ a.account_type = account_type ∧
        (∀ b ∈ l₂, b.account_type ≠ account_type) ∧
        pc.set_account account_type (.ok accounts) =
          ({ pc with account_id := some a.account_id }, .ok ())) := by
  have key := getLast?_map_filter_eq (fun account => account.account_type == account_type)
    (fun account => account.account_id) accounts
  constructor
  · intro hnone
    have hfind : accounts.reverse.find?
        (fun account => account.account_type == account_type) = none := by
      rw [List.find?_eq_none]
      intro x hx
      simpa using hnone x (List.mem_reverse.mp hx)
    have hsel : ((accounts.filter fun account => account.account_type == account_type).map
        fun account => account.account_id).getLast? = none := by
      rw [key, hfind]
      rfl
    simp [PublicClient.set_account, hsel]
  · intro hex
    cases hfind : accounts.reverse.find?
        (fun account => account.account_type == account_type) with
    | none =>
      rw [List.find?_eq_none] at hfind
      obtain ⟨a, ha, hat⟩ := hex
      exact absurd (by simpa using hat) (hfind a (List.mem_reverse.mpr ha))
    | some a =>
      obtain ⟨hpa, l₁, l₂, heq, hall⟩ := find?_eq_some_decomp _ _ _ hfind
      refine ⟨l₂.reverse, a, l₁.reverse, ?_, by simpa using hpa, ?_, ?_⟩
      · have hrev := congrArg List.reverse heq
        simpa using hrev
      · intro b hb
        simpa using hall b (List.mem_reverse.mp hb)
      · have hsel : ((accounts.filter fun account => account.account_type == account_type).map
            fun account => account.account_id).getLast? = some a.account_id := by
          rw [key, hfind]
          rfl
        simp [PublicClient.set_account, hsel]

/-- Three concrete accounts as in the tie-break example: ids a and b of type
BROKERAGE, id c of type OTHER. -/
def exampleAccounts : List Account :=
  [{ account_id := "a", account_type := "BROKERAGE", options_level := "",
     brokerage_account_type := "", trade_permissions := "" },
   { account_id := "b", account_type := "BROKERAGE", options_level := "",
     brokerage_account_type := "", trade_permissions := "" },
   { account_id := "c", account_type := "OTHER", options_level := "",
     brokerage_account_type := "", trade_permissions := "" }]

/-- Witness for C4: on the example list the selection lands on the last
BROKERAGE match, and set_account stores the id b, not a; on the empty list
the requested type is not found. -/
theorem c4_account_selection_witness :
    (∃ l₁ a l₂, exampleAccounts = l₁ ++ a :: l₂ ∧ a.account_type = "BROKERAGE" ∧
      (∀ b ∈ l₂, b.account_type ≠ "BROKERAGE") ∧
      emptyClient.set_account "BROKERAGE" (.ok exampleAccounts) =
        ({ emptyClient with account_id := some a.account_id }, .ok ())) ∧
    (emptyClient.set_account "BROKERAGE" (.ok exampleAccounts)).1.account_id = some "b" ∧
    emptyClient.set_account "BROKERAGE" (.ok []) =
      (emptyClient, .error PublicError.AccountTypeNotFound) :=
  ⟨(c4_account_selection emptyClient exampleAccounts "BROKERAGE").2 (by decide),
   by decide,
   (c4_account_selection emptyClient [] "BROKERAGE").1 (by decide)⟩

/-- C5: per-call token acquisition.  A cached valid token is used with no
vault fetch, exchange, or refresh (the outcome and the client state are
independent of the vault and nothing is overwritten); with no cached token a
vault failure fails the call with MissingCredentials before any exchange; a
vault success exchanges the secret at the requested TTL, and an exchange
success is stored via refresh and returned. -/
theorem c5_token_acquisition (pc : PublicClient) (now nowR : Int)
    (exchange : String → Int → Except PublicError String) :
    (∀ token, pc.creds.access_token now = some token →
      ∀ vault, pc.access_token now nowR vault exchange = (.ok token, pc)) ∧
    (pc.creds.access_token now = none →
      (∀ msg, pc.access_token now nowR (.error msg) exchange =
        (.error PublicError.MissingCredentials, pc)) ∧
      (∀ secret,
        (∀ e, exchange secret pc.creds.ttl = .error e →
          pc.access_token now nowR (.ok secret) exchange = (.error e, pc)) ∧
        (∀ token, exchange secret pc.creds.ttl = .ok token →
          pc.access_token now nowR (.ok secret) exchange =
            (.ok token, { pc with creds := pc.creds.refresh token nowR })))) := by
  constructor
  · intro token htok vault
    simp [PublicClient.access_token, htok]
  · intro hnone
    refine ⟨?_, ?_⟩
    · intro msg
      simp [PublicClient.access_token, hnone]
    · intro secret
      constructor
      · intro e he
        simp [PublicClient.access_token, hnone, he]
      · intro token htok
        simp [PublicClient.access_token, hnone, htok]

/-- Client holding a cached token valid until instant 100. -/
def cachedClient : PublicClient :=
  { account_id := none, creds := { data := some { token := "cached", token_ttl := 100 } } }

/-- Witness for C5: with a valid cached token the token is returned and the
state untouched even under a failing vault; with an empty store a failing
vault yields MissingCredentials; with an empty store and a working vault the
exchanged token is returned and stored via refresh. -/
theorem c5_token_acquisition_witness :
    cachedClient.access_token 0 0 (.error "bw down") (fun _ _ => .ok "newtok") =
      (.ok "cached", cachedClient) ∧
    emptyClient.access_token 0 0 (.error "bw down") (fun _ _ => .ok "newtok") =
      (.error PublicError.MissingCredentials, emptyClient) ∧
    emptyClient.access_token 0 7 (.ok "s1") (fun _ _ => .ok "newtok") =
      (.ok "newtok", { emptyClient with creds := emptyClient.creds.refresh "newtok" 7 }) :=
  ⟨(c5_token_acquisition cachedClient 0 0 (fun _ _ => .ok "newtok")).1 "cached" (by decide)
      (.error "bw down"),
   ((c5_token_acquisition emptyClient 0 0 (fun _ _ => .ok "newtok")).2 rfl).1 "bw down",
   (((c5_token_acquisition emptyClient 0 7 (fun _ _ => .ok "newtok")).2 rfl).2 "s1").2
      "newtok" rfl⟩

/-- C8: every account-scoped endpoint invoked while account_id is none fails
with MissingAccountId, for every argument and every network behaviour. -/
theorem c8_missing_account_id (pc : PublicClient) (h : pc.account_id = none) :
    (∀ symbols call, pc.get_quotes symbols call = .error PublicError.MissingAccountId) ∧
    (∀ instrument call,
      pc.get_option_expirations instrument call = .error PublicError.MissingAccountId) ∧
    (∀ instrument expiration_date call,
      pc.get_option_chain instrument expiration_date call =
        .error PublicError.MissingAccountId) ∧
    (∀ osi_option_symbol call,
      pc.get_option_greeks osi_option_symbol call =
        .error PublicError.MissingAccountId) := by
  refine ⟨?_, ?_, ?_, ?_⟩ <;> intros <;>
    simp [PublicClient.get_quotes, PublicClient.get_option_expirations,
      PublicClient.get_option_chain, PublicClient.get_option_greeks, h]

/-- Witness for C8: the four endpoints on a fresh client with no resolved
account, each with concrete arguments and a concrete network oracle. -/
theorem c8_missing_account_id_witness :
    emptyClient.get_quotes [] (fun _ _ => .error PublicError.InvalidUri) =
      .error PublicError.MissingAccountId ∧
    emptyClient.get_option_expirations { symbol := "LMND", itype := InstrumentType.EQUITY }
      (fun _ _ => .error PublicError.InvalidUri) = .error PublicError.MissingAccountId ∧
    emptyClient.get_option_chain { symbol := "LMND", itype := InstrumentType.EQUITY }
      "2025-12-19" (fun _ _ => .error PublicError.InvalidUri) =
      .error PublicError.MissingAccountId ∧
    emptyClient.get_option_greeks "LMND251219C00050000"
      (fun _ => .error PublicError.InvalidUri) = .error PublicError.MissingAccountId :=
  ⟨(c8_missing_account_id emptyClient rfl).1 _ _,
   (c8_missing_account_id emptyClient rfl).2.1 _ _,
   (c8_missing_account_id emptyClient rfl).2.2.1 _ _ _,
   (c8_missing_account_id emptyClient rfl).2.2.2 _ _⟩

/-- C10: set_account is atomic on error.  Whenever the call returns an error
(transport, service, or AccountTypeNotFound) the client state is exactly the
prior state; the stored account id changes only on success, to the selected
id. -/
theorem c10_set_account_atomic (pc : PublicClient) (account_type : String)
    (fetched : Except PublicError (List Account)) :
    (∀ e, (pc.set_account account_type fetched).2 = .error e →
      (pc.set_account account_type fetched).1 = pc) ∧
    ((pc.set_account account_type fetched).2 = .ok () →
      ∃ accounts a_id, fetched = .ok accounts ∧
        ((accounts.filter fun account => account.account_type == account_type).map
          fun account => account.account_id).getLast? = some a_id ∧
        (pc.set_account account_type fetched).1 =
          { pc with account_id := some a_id }) := by
  cases fetched with
  | error e =>
    refine ⟨fun _ _ => rfl, fun h => absurd h ?_⟩
    simp [PublicClient.set_account]
  | ok accounts =>
    cases hsel : ((accounts.filter fun account => account.account_type == account_type).map
        fun account => account.account_id).getLast? with
    | none =>
      refine ⟨fun _ _ => ?_, fun h => absurd h ?_⟩
      · simp [PublicClient.set_account, hsel]
      · simp [PublicClient.set_account, hsel]
    | some a_id =>
      refine ⟨fun e2 he => absurd he ?_, fun _ => ?_⟩
      · simp [PublicClient.set_account, hsel]
      · exact ⟨accounts, a_id, rfl, hsel, by simp [PublicClient.set_account, hsel]⟩

/-- Witness for C10: a failed fetch and an empty account list both leave the
fresh client unchanged. -/
theorem c10_set_account_atomic_witness :
    (emptyClient.set_account "BROKERAGE" (.error (PublicError.HttpError "down"))).1 =
      emptyClient ∧
    (emptyClient.set_account "BROKERAGE" (.ok [])).1 = emptyClient :=
  ⟨(c10_set_account_atomic emptyClient "BROKERAGE"
      (.error (PublicError.HttpError "down"))).1 (PublicError.HttpError "down") rfl,
   (c10_set_account_atomic emptyClient "BROKERAGE" (.ok [])).1
      PublicError.AccountTypeNotFound rfl⟩
